import Mathlib

/-!
Shallow embedding of the core engine of `figma_to_html.py`
(class `FigmaToHTMLConverter` plus the `Color` dataclass).

Modelling conventions:
* JSON numbers are modelled as exact rationals (`ℚ`).  Python prints an
  integer-valued number without a decimal point; the model's `py_num`
  does the same for rationals with denominator 1 and prints the finite
  decimal expansion otherwise (every number arising from a JSON float is
  dyadic, hence has a finite decimal expansion).  The int/float display
  distinction of Python (`10` vs `10.0`) is not tracked: an integral
  float would print as `10.0` in Python and `10` here.
* Python dicts with a fixed set of optional keys are modelled as
  structures of `Option` fields; `d.get(k, v)` becomes `f.getD v`.
  The per-corner radius alias keys are kept as an association list,
  mirroring the key-probing loop of `get_border_radius`.
* `int(x)` on a number truncates toward zero; `int(q * m)` is embedded
  as `py_int_mul q m = (q.num * m).tdiv q.den`, which is exactly the
  truncation toward zero of the exact value `q * m`.
* `f"{x:.1f}"` rounds to one decimal, ties to even: `fmt1`.
* `f"{n:02x}"` on an int: `py_hex2` (sign counts toward the width,
  values needing more than two digits are not padded).
Numeric helpers are written on `num`/`den` directly so that they reduce
inside the kernel; each is value-faithful to the Python operation it
models.
-/

namespace Figma

/-- Single-quote character as a string (kept out of string literals). -/
def sq : String := String.singleton (Char.ofNat 39)

/-- Left-pad a string with zeros up to length `k` (Python zero padding). -/
def pad_zeros (k : Nat) (s : String) : String :=
  String.mk (List.replicate (k - s.length) (Char.ofNat 48)) ++ s

/-- Lower-case hexadecimal digits of a natural number (Python `x` format). -/
def hex_str (n : Nat) : String := String.mk (Nat.toDigits 16 n)

/-- Python `f"{n:02x}"` on an `int`: zero-padded to total width 2, the
sign counting toward the width, unbounded above. -/
def py_hex2 (n : ℤ) : String :=
  if n < 0 then "-" ++ pad_zeros 1 (hex_str n.natAbs)
  else pad_zeros 2 (hex_str n.natAbs)

/-- Python `int(q * m)`: truncation toward zero of the exact value
`q * m` (`Int.tdiv` truncates toward zero, matching CPython's
float-to-int conversion). -/
def py_int_mul (q : ℚ) (m : ℤ) : ℤ := (q.num * m).tdiv q.den

/-- Finite decimal expansion of a non-integral rational (Python float
display, e.g. `0.5`).  Every float-derived rational is dyadic and hence
terminates within 40 digits; the final branch is unreachable for such
inputs. -/
def py_frac (q : ℚ) : String :=
  match (List.range 40).find?
      (fun k => q.num * 10 ^ (k + 1) % (q.den : ℤ) == 0) with
  | some k =>
    let e := k + 1
    let m := ((q.num * 10 ^ e).tdiv q.den).natAbs
    (if q.num < 0 then "-" else "") ++ toString (m / 10 ^ e) ++ "." ++
      pad_zeros e (toString (m % 10 ^ e))
  | none => toString q.num ++ "/" ++ toString q.den

/-- Python display of a JSON number: integer form when integral, finite
decimal expansion otherwise (see module comment). -/
def py_num (q : ℚ) : String :=
  if q.den = 1 then toString q.num else py_frac q

/-- Round the fraction `a / b` (with `b > 0`) to the nearest integer,
ties to even (the rounding used by Python's fixed-point formatting). -/
def round_half_even (a b : ℤ) : ℤ :=
  let f := a.fdiv b
  let rem := a - f * b
  if 2 * rem < b then f
  else if b < 2 * rem then f + 1
  else if f % 2 = 0 then f else f + 1

/-- Python `f"{x:.1f}"`: one digit after the decimal point, applied to
the exact value `q` (ties to even). -/
def fmt1 (q : ℚ) : String :=
  let n := round_half_even (q.num * 10) (q.den : ℤ)
  let m := n.natAbs
  (if n < 0 ∨ (n = 0 ∧ q.num < 0) then "-" else "") ++
    toString (m / 10) ++ "." ++ toString (m % 10)

/-- Python `str.lower()` (ASCII; every value it is applied to in the
source is an ASCII node-type or alignment keyword). -/
def py_lower (s : String) : String := String.mk (s.data.map Char.toLower)

/-- Python substring containment `sub in s`: some suffix of `s` starts
with `sub` (true for the empty `sub`, as in Python). -/
def py_in (sub s : String) : Bool :=
  s.data.tails.any (fun t => sub.data.isPrefixOf t)

/-- Python ordered-dict assignment `d[k] = v` on an association list:
replace in place when the key exists, append otherwise. -/
def style_set (styles : List (String × String)) (k v : String) :
    List (String × String) :=
  if styles.any (fun p => p.1 = k) then
    styles.map (fun p => if p.1 = k then (k, v) else p)
  else styles ++ [(k, v)]

/-- Python `dict.update`: fold `style_set` over the update list. -/
def styles_update (base upd : List (String × String)) :
    List (String × String) :=
  upd.foldl (fun acc p => style_set acc p.1 p.2) base

/-- The rational one half, written as a raw fraction so that it is
kernel-transparent (used only by concrete test inputs). -/
def half : ℚ := Rat.mk' 1 2 (by norm_num) (Nat.coprime_one_left 2)

/-- The `Color` dataclass: four rational channels, alpha defaulting to 1. -/
structure Color where
  r : ℚ
  g : ℚ
  b : ℚ
  a : ℚ := 1
  deriving DecidableEq

/-- `Color.to_css`: 8-bit truncating scaling of r/g/b; `rgba(...)` with
the alpha passed through unscaled when `a < 1`, `rgb(...)` otherwise. -/
def Color.to_css (c : Color) : String :=
  let r := py_int_mul c.r 255
  let g := py_int_mul c.g 255
  let b := py_int_mul c.b 255
  if c.a < 1 then
    "rgba(" ++ toString r ++ ", " ++ toString g ++ ", " ++ toString b ++
      ", " ++ py_num c.a ++ ")"
  else
    "rgb(" ++ toString r ++ ", " ++ toString g ++ ", " ++ toString b ++ ")"

/-- `Color.to_hex`: `#` followed by the three channels in the Python
`02x` format, alpha ignored. -/
def Color.to_hex (c : Color) : String :=
  "#" ++ py_hex2 (py_int_mul c.r 255) ++ py_hex2 (py_int_mul c.g 255) ++
    py_hex2 (py_int_mul c.b 255)

/-- Color payload of a paint/effect/stop (the `color` sub-dict), all
four channels optional. -/
structure ColorData where
  r : Option ℚ := none
  g : Option ℚ := none
  b : Option ℚ := none
  a : Option ℚ := none
  deriving DecidableEq

/-- `parse_color`: defaults r/g/b to 0 and a to 1. -/
def parse_color (cd : ColorData) : Color :=
  { r := cd.r.getD 0, g := cd.g.getD 0, b := cd.b.getD 0, a := cd.a.getD 1 }

/-- A gradient handle position dict (`x`/`y` optional). -/
structure HandlePos where
  x : Option ℚ := none
  y : Option ℚ := none
  deriving DecidableEq

/-- A gradient stop dict (`color` and `position` optional). -/
structure GradientStop where
  color : Option ColorData := none
  position : Option ℚ := none
  deriving DecidableEq

/-- A paint dict (fill or stroke entry). -/
structure Paint where
  type : Option String := none
  visible : Option Bool := none
  color : Option ColorData := none
  opacity : Option ℚ := none
  gradientStops : List GradientStop := []
  gradientHandlePositions : List HandlePos := []
  deriving DecidableEq

/-- Converter-instance state used by the core: the node-id to image-URL
map fetched by the (excluded) API collaborator. -/
structure Converter where
  image_fills : List (String × String) := []

/-- Abstraction of the float-library composite
`f"{math.atan2(y2 - y1, x2 - x1) * 180 / math.pi + 90:.1f}"` used by
`parse_gradient`: floating-point trigonometry has no exact executable
embedding, so the formatted angle is a parameter of the embedding.  Its
idealised real-number value is `gradient_angle_deg` below. -/
def AngleFmt : Type := ℚ → ℚ → ℚ → ℚ → String

/-- The CSS string of one gradient stop:
`f"{color.to_css()} {position * 100:.1f}%"` with the source's defaults. -/
def gradient_stop_css (stop : GradientStop) : String :=
  (parse_color (stop.color.getD {})).to_css ++ " " ++
    fmt1 (stop.position.getD 0 * 100) ++ "%"

/-- `parse_gradient`: linear gradients with at least two handle
positions produce `linear-gradient(<angle>deg, <stops>)`, everything
else falls back to `"transparent"`.  Stops are joined in list order.
`atan_fmt x1 y1 x2 y2` stands for the formatted angle (see `AngleFmt`);
the handle coordinate defaults are those of the source
(`x1`,`y1` default 0, `x2`,`y2` default 1). -/
def parse_gradient (atan_fmt : AngleFmt) (gradient_fill : Paint) : String :=
  if gradient_fill.type = some "GRADIENT_LINEAR" then
    match gradient_fill.gradientHandlePositions with
    | h1 :: h2 :: _ =>
      "linear-gradient(" ++
        atan_fmt (h1.x.getD 0) (h1.y.getD 0) (h2.x.getD 1) (h2.y.getD 1) ++
        "deg, " ++
        String.intercalate ", "
          (gradient_fill.gradientStops.map gradient_stop_css) ++ ")"
    | _ => "transparent"
  else "transparent"

/-- Fuel-indexed embedding of `get_fills_css`.  The Python function
recurses into itself with the singleton `[visible_fills[0]]` both when
more than one visible fill is present and when the single visible
fill's type is not one of SOLID / GRADIENT_LINEAR / IMAGE; in the
latter case the recursion never terminates (a genuine defect, see the
C9 theorem).  `none` models a call that does not return (Python:
unbounded recursion ending in `RecursionError`); the unreachable
empty-filter branch models Python's `IndexError` the same way. -/
def get_fills_cssF (atan_fmt : AngleFmt) (conv : Converter) :
    Nat → List Paint → String → Option String
  | 0, _, _ => none
  | fuel + 1, fills, node_id =>
    if fills.isEmpty || fills.all (fun f => !(f.visible.getD true)) then
      some "transparent"
    else
      match fills.filter (fun f => f.visible.getD true) with
      | [] => none
      | fill :: rest =>
        if rest.isEmpty then
          if fill.type = some "SOLID" then
            let color := parse_color (fill.color.getD {})
            let opacity := fill.opacity.getD 1
            some (Color.to_css { color with a := color.a * opacity })
          else if fill.type = some "GRADIENT_LINEAR" then
            some (parse_gradient atan_fmt fill)
          else if fill.type = some "IMAGE" then
            match conv.image_fills.lookup node_id with
            | some url => some ("url(" ++ sq ++ url ++ sq ++ ")")
            | none => some "#cccccc"
          else
            get_fills_cssF atan_fmt conv fuel [fill] node_id
        else
          get_fills_cssF atan_fmt conv fuel [fill] node_id

/-- `get_fills_css`: every terminating run of the Python function makes
at most one nested call, so fuel 2 computes the exact result; diverging
runs yield `none` at every fuel (see `get_fills_cssF_stable`). -/
def get_fills_css (atan_fmt : AngleFmt) (conv : Converter)
    (fills : List Paint) (node_id : String) : Option String :=
  get_fills_cssF atan_fmt conv 2 fills node_id

/-- Shadow offset sub-dict of an effect. -/
structure EffOffset where
  x : Option ℚ := none
  y : Option ℚ := none
  deriving DecidableEq

/-- An effect dict (shadow or blur). -/
structure Effect where
  type : Option String := none
  visible : Option Bool := none
  offset : Option EffOffset := none
  radius : Option ℚ := none
  spread : Option ℚ := none
  color : Option ColorData := none
  deriving DecidableEq

/-- `get_effects_css`: visible effects in list order; shadows as
`<x>px <y>px <radius>px <spread>px <color>` (`inset `-prefixed for
inner shadows), layer blurs as `blur(<radius>px)`; anything else and
invisible entries contribute nothing. -/
def get_effects_css (effects : List Effect) : List String :=
  effects.flatMap (fun effect =>
    if !(effect.visible.getD true) then []
    else if effect.type = some "DROP_SHADOW" ∨
        effect.type = some "INNER_SHADOW" then
      let offset := effect.offset.getD {}
      let x := offset.x.getD 0
      let y := offset.y.getD 0
      let radius := effect.radius.getD 0
      let spread := effect.spread.getD 0
      let color := parse_color (effect.color.getD {})
      let shadow := py_num x ++ "px " ++ py_num y ++ "px " ++
        py_num radius ++ "px " ++ py_num spread ++ "px " ++ color.to_css
      if effect.type = some "INNER_SHADOW" then ["inset " ++ shadow]
      else [shadow]
    else if effect.type = some "LAYER_BLUR" then
      ["blur(" ++ py_num (effect.radius.getD 0) ++ "px)"]
    else [])

/-- The `style` sub-dict of a text node. -/
structure TextStyle where
  fontFamily : Option String := none
  fontSize : Option ℚ := none
  fontWeight : Option ℚ := none
  lineHeightPx : Option ℚ := none
  lineHeightPercentFontSize : Option ℚ := none
  letterSpacing : Option ℚ := none
  textAlignHorizontal : Option String := none
  textDecoration : Option String := none
  textCase : Option String := none
  deriving DecidableEq

/-- An `absoluteBoundingBox` dict with all coordinates optional. -/
structure BBoxD where
  x : Option ℚ := none
  y : Option ℚ := none
  width : Option ℚ := none
  height : Option ℚ := none
  deriving DecidableEq

/-- Python truthiness of a bounding-box dict: an empty dict is falsy.
(A present dict carrying only unrelated keys is outside the data
model.) -/
def BBoxD.truthy (b : BBoxD) : Bool :=
  b.x.isSome || b.y.isSome || b.width.isSome || b.height.isSome

/-- The non-recursive fields of a node dict.  `type`, `id` and `name`
are required by the data model; everything else is optional or
defaults to the empty list.  `radius_fields` holds the per-corner
radius alias keys probed by `get_border_radius`, as an association
list standing for the node dict's remaining numeric entries. -/
structure NodeData where
  type : String
  id : String := ""
  name : String := ""
  visible : Option Bool := none
  absoluteBoundingBox : Option BBoxD := none
  fills : List Paint := []
  strokes : List Paint := []
  strokeWeight : Option ℚ := none
  effects : List Effect := []
  opacity : Option ℚ := none
  cornerRadius : Option ℚ := none
  rectangleCornerRadii : Option (List ℚ) := none
  radius_fields : List (String × ℚ) := []
  characters : Option String := none
  style : Option TextStyle := none

/-- A document node: its own fields plus the ordered child list. -/
inductive Node where
  | mk (data : NodeData) (children : List Node)

/-- Field part of a node. -/
def Node.data : Node → NodeData
  | .mk d _ => d

/-- Children of a node (`node.get("children", [])`). -/
def Node.children : Node → List Node
  | .mk _ c => c

/-- `get_strokes_css`: the `(border-width, border-style, border-color)`
triple; the empty triple signals "no border". -/
def get_strokes_css (node : NodeData) : String × String × String :=
  let strokes := node.strokes
  if strokes.isEmpty || strokes.all (fun s => !(s.visible.getD true)) then
    ("", "", "")
  else
    match strokes.find? (fun s => s.visible.getD true) with
    | none => ("", "", "")
    | some stroke =>
      let stroke_weight := node.strokeWeight.getD 1
      let border_width := py_num stroke_weight ++ "px"
      let border_color :=
        if stroke.type = some "SOLID" then
          let color := parse_color (stroke.color.getD {})
          let opacity := stroke.opacity.getD 1
          Color.to_css { color with a := color.a * opacity }
        else "#000000"
      (border_width, "solid", border_color)

/-- Alias names probed for the top-left corner, in priority order. -/
def top_left_names : List String :=
  ["rectangleCornerTopLeftRadius", "topLeftRadius", "cornerTopLeftRadius"]

/-- Alias names probed for the top-right corner, in priority order. -/
def top_right_names : List String :=
  ["rectangleCornerTopRightRadius", "topRightRadius", "cornerTopRightRadius"]

/-- Alias names probed for the bottom-right corner, in priority order. -/
def bottom_right_names : List String :=
  ["rectangleCornerBottomRightRadius", "bottomRightRadius",
   "cornerBottomRightRadius"]

/-- Alias names probed for the bottom-left corner, in priority order. -/
def bottom_left_names : List String :=
  ["rectangleCornerBottomLeftRadius", "bottomLeftRadius",
   "cornerBottomLeftRadius"]

/-- One corner of the alias probe: try each property name in order and
stop at the first present key (`None` when no alias is present). -/
def alias_corner (node : NodeData) (names : List String) : Option ℚ :=
  names.findSome? (fun nm => node.radius_fields.lookup nm)

/-- The per-corner-alias section of `get_border_radius` (the code after
both the uniform field and the 4-array have failed to apply). -/
def get_border_radius_aliases (node : NodeData) : String :=
  let tl := alias_corner node top_left_names
  let tr := alias_corner node top_right_names
  let br := alias_corner node bottom_right_names
  let bl := alias_corner node bottom_left_names
  let radii := [tl.getD 0, tr.getD 0, br.getD 0, bl.getD 0]
  let has_any_radius := tl.isSome || tr.isSome || br.isSome || bl.isSome
  if !has_any_radius then "0px"
  else if radii.all (fun r => r = tl.getD 0) then
    if tl.getD 0 = 0 then "0px" else py_num (tl.getD 0) ++ "px"
  else
    py_num (tl.getD 0) ++ "px " ++ py_num (tr.getD 0) ++ "px " ++
      py_num (br.getD 0) ++ "px " ++ py_num (bl.getD 0) ++ "px"

/-- `get_border_radius`: uniform `cornerRadius` field first, then the
4-element `rectangleCornerRadii` array (ignored unless its length is
exactly 4), then the per-corner alias probe. -/
def get_border_radius (node : NodeData) : String :=
  match node.cornerRadius with
  | some radius => py_num radius ++ "px"
  | none =>
    match node.rectangleCornerRadii with
    | some radii =>
      if radii.length = 4 then
        if radii.all (fun r => r = radii.headD 0) then
          if radii.headD 0 = 0 then "0px" else py_num (radii.headD 0) ++ "px"
        else
          py_num (radii.headD 0) ++ "px " ++ py_num (radii.getD 1 0) ++
            "px " ++ py_num (radii.getD 2 0) ++ "px " ++
            py_num (radii.getD 3 0) ++ "px"
      else get_border_radius_aliases node
    | none => get_border_radius_aliases node

/-- `get_text_styles`: the ordered style mapping of a text node.
`none` models a run that does not return, propagated from
`get_fills_css` on the node's own fill list (the side effect on the
instance-wide `fonts_used` set has no bearing on the output and is not
modelled). -/
def get_text_styles (atan_fmt : AngleFmt) (conv : Converter)
    (node : NodeData) : Option (List (String × String)) :=
  let style := node.style.getD {}
  let styles : List (String × String) := []
  let font_family := style.fontFamily.getD "Arial"
  let styles := style_set styles "font-family"
    (sq ++ font_family ++ sq ++ ", sans-serif")
  let styles := style_set styles "font-size"
    (py_num (style.fontSize.getD 16) ++ "px")
  let styles := style_set styles "font-weight"
    (py_num (style.fontWeight.getD 400))
  let styles :=
    match style.lineHeightPx with
    | some lh => style_set styles "line-height" (py_num lh ++ "px")
    | none =>
      match style.lineHeightPercentFontSize with
      | some p => style_set styles "line-height" (py_num p ++ "%")
      | none => styles
  let styles :=
    match style.letterSpacing with
    | some ls => style_set styles "letter-spacing" (py_num ls ++ "px")
    | none => styles
  let ta := py_lower (style.textAlignHorizontal.getD "LEFT")
  let ta := if ta = "justified" then "justify" else ta
  let styles := style_set styles "text-align" ta
  let styles :=
    if style.textDecoration = some "UNDERLINE" then
      style_set styles "text-decoration" "underline"
    else if style.textDecoration = some "STRIKETHROUGH" then
      style_set styles "text-decoration" "line-through"
    else styles
  let styles :=
    if style.textCase = some "UPPER" then
      style_set styles "text-transform" "uppercase"
    else if style.textCase = some "LOWER" then
      style_set styles "text-transform" "lowercase"
    else if style.textCase = some "TITLE" then
      style_set styles "text-transform" "capitalize"
    else styles
  match node.fills with
  | [] => some styles
  | _ => do
    let color ← get_fills_css atan_fmt conv node.fills ""
    pure (style_set styles "color" color)

mutual

/-- `node_to_html`: the recursive Tree Walker.  `none` models a run
that does not return (propagated from `get_fills_css`).  Invisible
nodes yield the empty string; nodes whose bounding box is missing (or
an empty, hence falsy, dict) are a transparent pass-through; all other
nodes emit one element, positioned relative to `parent_box` when that
is present and truthy, and at their absolute coordinates otherwise.
(The source's dead reassignment `parent_box = bbox` in the root case
is not reproduced: children always receive `bbox`.) -/
def node_to_html (atan_fmt : AngleFmt) (conv : Converter) :
    Node → Option BBoxD → Nat → Option String
  | .mk data children, parent_box, depth =>
    if !(data.visible.getD true) then some ""
    else
      let bbox_t : Option BBoxD :=
        match data.absoluteBoundingBox with
        | some b => if b.truthy then some b else none
        | none => none
      match bbox_t with
      | none => do
        let parts ← children_htmls atan_fmt conv children parent_box depth
        pure (String.intercalate "\n" parts)
      | some bbox =>
        let x := bbox.x.getD 0
        let y := bbox.y.getD 0
        let width := bbox.width.getD 0
        let height := bbox.height.getD 0
        let rel :=
          match parent_box with
          | some pb =>
            if pb.truthy then (x - pb.x.getD 0, y - pb.y.getD 0) else (x, y)
          | none => (x, y)
        let styles : List (String × String) :=
          [("position", "absolute"),
           ("left", py_num rel.1 ++ "px"),
           ("top", py_num rel.2 ++ "px"),
           ("width", py_num width ++ "px"),
           ("height", py_num height ++ "px")]
        if data.type = "TEXT" then do
          let text_content := data.characters.getD ""
          let text_styles ← get_text_styles atan_fmt conv data
          let styles := styles_update styles text_styles
          let styles ←
            match data.fills with
            | [] => pure styles
            | f0 :: _ =>
              if f0.type = some "SOLID" then pure styles
              else do
                let bg ← get_fills_css atan_fmt conv data.fills data.id
                pure (if bg ≠ "transparent" then
                  style_set styles "background" bg else styles)
          let styles :=
            if data.effects.isEmpty then styles
            else
              let shadows := (get_effects_css data.effects).filter
                (fun e => !(py_in "blur" e))
              if shadows.isEmpty then styles
              else style_set styles "text-shadow"
                (String.intercalate ", " shadows)
          let style_str := String.intercalate "; "
            (styles.map (fun p => p.1 ++ ": " ++ p.2))
          pure ("<div class=\"text-node\" style=\"" ++ style_str ++ "\">" ++
            text_content ++ "</div>")
        else do
          let styles ←
            match data.fills with
            | [] => pure styles
            | _ => do
              let bg ← get_fills_css atan_fmt conv data.fills data.id
              pure (style_set styles "background" bg)
          let (border_width, border_style, border_color) :=
            get_strokes_css data
          let styles :=
            if border_width ≠ "" then
              style_set styles "border"
                (border_width ++ " " ++ border_style ++ " " ++ border_color)
            else styles
          let border_radius := get_border_radius data
          let styles :=
            if border_radius ≠ "0px" then
              style_set (style_set styles "border-radius" border_radius)
                "overflow" "hidden"
            else styles
          let styles :=
            if data.effects.isEmpty then styles
            else
              let shadows := (get_effects_css data.effects).filter
                (fun e => !(py_in "blur" e))
              if shadows.isEmpty then styles
              else style_set styles "box-shadow"
                (String.intercalate ", " shadows)
          let opacity := data.opacity.getD 1
          let styles :=
            if opacity < 1 then style_set styles "opacity" (py_num opacity)
            else styles
          let style_str := String.intercalate "; "
            (styles.map (fun p => p.1 ++ ": " ++ p.2))
          let parts ← children_htmls atan_fmt conv children (some bbox)
            (depth + 1)
          let class_name := py_lower data.type ++ "-node"
          if parts.isEmpty then
            pure ("<div class=\"" ++ class_name ++ "\" style=\"" ++
              style_str ++ "\"></div>")
          else
            pure ("<div class=\"" ++ class_name ++ "\" style=\"" ++
              style_str ++ "\">\n" ++ String.intercalate "\n" parts ++
              "\n</div>")

/-- The child loop shared by both branches of `node_to_html`: convert
each child against the given reference box and depth, keeping the
non-empty outputs in order.  A child that does not return propagates
`none`. -/
def children_htmls (atan_fmt : AngleFmt) (conv : Converter) :
    List Node → Option BBoxD → Nat → Option (List String)
  | [], _, _ => some []
  | child :: rest, parent_box, depth => do
    let child_html ← node_to_html atan_fmt conv child parent_box depth
    let other ← children_htmls atan_fmt conv rest parent_box depth
    pure (if child_html = "" then other else child_html :: other)

end

mutual

/-- `find_frames`: append every node of type FRAME whose own visible
flag is true, in depth-first pre-order, recursing into children
unconditionally.  `frames` is the source's accumulating list argument. -/
def find_frames : Node → List Node → List Node
  | .mk data children, frames =>
    let frames :=
      if data.type = "FRAME" ∧ data.visible.getD true then
        frames ++ [Node.mk data children]
      else frames
    find_frames_list children frames

/-- The child loop of `find_frames`. -/
def find_frames_list : List Node → List Node → List Node
  | [], frames => frames
  | child :: rest, frames => find_frames_list rest (find_frames child frames)

end

mutual

/-- All nodes of a tree in depth-first pre-order (specification-side
enumeration used to characterise `find_frames`). -/
def preorder_nodes : Node → List Node
  | .mk data children => Node.mk data children :: preorder_list children

/-- Pre-order enumeration of a forest. -/
def preorder_list : List Node → List Node
  | [] => []
  | child :: rest => preorder_nodes child ++ preorder_list rest

end

/-- Mathematical `atan2 y x` (the value computed by `math.atan2` up to
floating-point rounding): the angle of the point `(x, y)`, in
`(-pi, pi]`, with `atan2 0 0 = 0` as in CPython. -/
noncomputable def atan2R (y x : ℝ) : ℝ :=
  if 0 < x then Real.arctan (y / x)
  else if x < 0 ∧ 0 ≤ y then Real.arctan (y / x) + Real.pi
  else if x < 0 then Real.arctan (y / x) - Real.pi
  else if 0 < y then Real.pi / 2
  else if y < 0 then -(Real.pi / 2)
  else 0

/-- Idealised value of the gradient angle computed by `parse_gradient`:
`atan2(y2 - y1, x2 - x1) * 180 / pi + 90`. -/
noncomputable def gradient_angle_deg (x1 y1 x2 y2 : ℚ) : ℝ :=
  atan2R ((y2 : ℝ) - (y1 : ℝ)) ((x2 : ℝ) - (x1 : ℝ)) * 180 / Real.pi + 90

/-- Concrete angle formatter used by the concrete test inputs (all
theorems about the walker are universal in the formatter). -/
def atan_fmt0 : AngleFmt := fun _ _ _ _ => "135.0"

/-- Converter instance with an empty image map. -/
def conv0 : Converter := {}

/-- A visible root frame at absolute position (100, 200), size 50x60,
with no paint at all. -/
def root_data : NodeData :=
  { type := "FRAME", id := "1:1", name := "Root",
    absoluteBoundingBox :=
      some { x := some 100, y := some 200, width := some 50,
             height := some 60 } }

/-- The childless node of `root_data`. -/
def root_node : Node := .mk root_data []

/-- A truthy reference box at the document origin. -/
def origin_box : BBoxD := { x := some 0, y := some 0 }

/-- A visible solid red fill. -/
def solid_red : Paint :=
  { type := some "SOLID",
    color := some { r := some 1, g := some 0, b := some 0, a := some 1 } }

/-- An invisible solid green fill. -/
def invis_fill : Paint :=
  { type := some "SOLID", visible := some false,
    color := some { r := some 0, g := some 1, b := some 0 } }

/-- A visible solid blue fill (a later entry that must be ignored). -/
def extra_fill : Paint :=
  { type := some "SOLID", color := some { b := some 1 } }

/-- A linear-gradient fill with handles (0,0) and (1,1) and no stops. -/
def grad_fill : Paint :=
  { type := some "GRADIENT_LINEAR",
    gradientHandlePositions :=
      [{ x := some 0, y := some 0 }, { x := some 1, y := some 1 }] }

/-- A linear-gradient fill with a single handle position. -/
def grad_fill1 : Paint :=
  { type := some "GRADIENT_LINEAR",
    gradientHandlePositions := [{ x := some 0, y := some 0 }] }

/-- A visible fill of a paint kind the single-fill dispatch does not
handle (the kind "other" of the data model). -/
def bad_fill : Paint := { type := some "GRADIENT_RADIAL" }

/-- A visible rectangle carrying only `bad_fill`. -/
def bad_node : Node :=
  .mk { type := "RECTANGLE", id := "9:9",
        absoluteBoundingBox :=
          some { x := some 0, y := some 0, width := some 10,
                 height := some 10 },
        fills := [bad_fill] } []

/-- An invisible frame with a visible child. -/
def invis_node : Node :=
  .mk { type := "FRAME", id := "7:0", visible := some false } [root_node]

/-- A second childless element, used as a sibling in concrete trees. -/
def other_node : Node :=
  .mk { type := "RECTANGLE", id := "2:2",
        absoluteBoundingBox :=
          some { x := some 5, y := some 6, width := some 7,
                 height := some 8 } } []

/-- A visible group with no bounding box and two children. -/
def pass_node : Node :=
  .mk { type := "GROUP", id := "2:0" } [root_node, other_node]

/-- A visible frame nested under the invisible `hidden_root`. -/
def inner_frame : Node :=
  .mk { type := "FRAME", id := "8:1",
        absoluteBoundingBox :=
          some { x := some 1, y := some 2, width := some 3,
                 height := some 4 } } []

/-- An invisible frame containing `inner_frame`. -/
def hidden_root : Node :=
  .mk { type := "FRAME", id := "8:0", visible := some false,
        absoluteBoundingBox :=
          some { x := some 0, y := some 0, width := some 9,
                 height := some 9 } } [inner_frame]

/-- The result `get_fills_css` computes from one visible fill (the body
of the single-visible-fill branch), `none` for an unhandled paint type. -/
def single_fill_result (atan_fmt : AngleFmt) (conv : Converter)
    (fill : Paint) (node_id : String) : Option String :=
  if fill.type = some "SOLID" then
    let color := parse_color (fill.color.getD {})
    let opacity := fill.opacity.getD 1
    some (Color.to_css { color with a := color.a * opacity })
  else if fill.type = some "GRADIENT_LINEAR" then
    some (parse_gradient atan_fmt fill)
  else if fill.type = some "IMAGE" then
    match conv.image_fills.lookup node_id with
    | some url => some ("url(" ++ sq ++ url ++ sq ++ ")")
    | none => some "#cccccc"
  else none

lemma get_fills_cssF_unknown (atan_fmt : AngleFmt) (conv : Converter)
    (f : Paint) (nid : String) (hv : f.visible.getD true = true)
    (h1 : f.type ≠ some "SOLID") (h2 : f.type ≠ some "GRADIENT_LINEAR")
    (h3 : f.type ≠ some "IMAGE") :
    ∀ fuel, get_fills_cssF atan_fmt conv fuel [f] nid = none := by
  intro fuel
  induction fuel with
  | zero => rfl
  | succ n ih => simp [get_fills_cssF, hv, h1, h2, h3, ih]

lemma get_fills_cssF_single (atan_fmt : AngleFmt) (conv : Converter)
    (f : Paint) (nid : String) (hv : f.visible.getD true = true) :
    ∀ n, get_fills_cssF atan_fmt conv (n + 1) [f] nid =
      single_fill_result atan_fmt conv f nid := by
  intro n
  by_cases h1 : f.type = some "SOLID"
  · simp [get_fills_cssF, single_fill_result, hv, h1]
  · by_cases h2 : f.type = some "GRADIENT_LINEAR"
    · simp [get_fills_cssF, single_fill_result, hv, h1, h2]
    · by_cases h3 : f.type = some "IMAGE"
      · simp [get_fills_cssF, single_fill_result, hv, h1, h2, h3]
      · simp [get_fills_cssF, single_fill_result, hv, h1, h2, h3,
          get_fills_cssF_unknown atan_fmt conv f nid hv h1 h2 h3]

lemma vis_of_filter_cons {fills : List Paint} {f : Paint} {rest : List Paint}
    (h : fills.filter (fun g => g.visible.getD true) = f :: rest) :
    f.visible.getD true = true := by
  have hf : f ∈ fills.filter (fun g => g.visible.getD true) := by
    rw [h]; exact List.mem_cons_self f rest
  exact (List.mem_filter.mp hf).2

/-- Unfolding of `get_fills_css` when at least one visible fill exists:
the result is computed from the head of the visible sublist. -/
lemma get_fills_css_first (atan_fmt : AngleFmt) (conv : Converter)
    (fills : List Paint) (nid : String) (f : Paint) (rest : List Paint)
    (h : fills.filter (fun g => g.visible.getD true) = f :: rest) :
    get_fills_css atan_fmt conv fills nid =
      single_fill_result atan_fmt conv f nid := by
  have hv := vis_of_filter_cons h
  have hne : fills ≠ [] := by
    intro hnil; rw [hnil] at h; simp at h
  have hf : f ∈ fills :=
    (List.mem_filter.mp (by rw [h]; exact List.mem_cons_self f rest)).1
  have hall : fills.all (fun g => !(g.visible.getD true)) = false := by
    apply Bool.eq_false_iff.mpr
    intro hc
    have := List.all_eq_true.mp hc f hf
    simp [hv] at this
  have hsing := get_fills_cssF_single atan_fmt conv f nid hv 0
  show get_fills_cssF atan_fmt conv 2 fills nid = _
  rw [get_fills_cssF]
  simp only [List.isEmpty_eq_true, hne, hall, Bool.or_self, if_false,
    ite_false, h, Bool.or_false]
  rcases rest with _ | ⟨g, rest2⟩
  · by_cases h1 : f.type = some "SOLID"
    · simp [single_fill_result, h1]
    · by_cases h2 : f.type = some "GRADIENT_LINEAR"
      · simp [single_fill_result, h1, h2]
      · by_cases h3 : f.type = some "IMAGE"
        · simp [single_fill_result, h1, h2, h3]
        · simpa [h1, h2, h3] using hsing
  · simpa using hsing

/-- Fuel-independence of the embedding: two units of fuel already
compute the fixed point (every terminating run of the Python function
makes at most one nested call; diverging runs are `none` at all
fuels). -/
lemma get_fills_cssF_stable (atan_fmt : AngleFmt) (conv : Converter)
    (fills : List Paint) (nid : String) :
    ∀ n, get_fills_cssF atan_fmt conv (n + 2) fills nid =
      get_fills_css atan_fmt conv fills nid := by
  intro n
  show _ = get_fills_cssF atan_fmt conv 2 fills nid
  rw [get_fills_cssF, get_fills_cssF]
  rcases hguard : (fills.isEmpty ||
      fills.all (fun f => !(f.visible.getD true))) with _ | _
  · simp only [hguard, if_false, Bool.false_eq_true]
    rcases hfil : fills.filter (fun g => g.visible.getD true) with _ | ⟨f, rest⟩
    · rw [show (fills.filter (fun f => f.visible.getD true)) = [] from hfil]
    · have hv := vis_of_filter_cons hfil
      rw [show (fills.filter (fun f => f.visible.getD true)) = f :: rest
        from hfil]
      have heq := (get_fills_cssF_single atan_fmt conv f nid hv n).trans
        (get_fills_cssF_single atan_fmt conv f nid hv 0).symm
      rcases rest with _ | ⟨g, rest2⟩
      · simp only [List.isEmpty_nil, if_true, ite_true]
        by_cases h1 : f.type = some "SOLID"
        · simp [h1]
        · by_cases h2 : f.type = some "GRADIENT_LINEAR"
          · simp [h1, h2]
          · by_cases h3 : f.type = some "IMAGE"
            · simp [h1, h2, h3]
            · simpa [h1, h2, h3] using heq
      · simpa using heq
  · simp [hguard]

example : (Color.mk 1 half 0 1).to_css = "rgb(255, 127, 0)" := by decide
example : (Color.mk 1 half 0 half).to_css = "rgba(255, 127, 0, 0.5)" := by
  decide
example : (Color.mk 1 half 0 1).to_hex = "#ff7f00" := by decide
example : fmt1 135 = "135.0" := by decide
example : py_num 10 = "10" := by decide

/-- C3: an empty or all-invisible fill list resolves to exactly
`"transparent"`; otherwise the result is determined solely by the first
visible entry (later visible fills never affect it): solid paints give
the Color Model token with alpha multiplied by the fill's opacity
(default 1), linear gradients give the gradient string, and image
paints give a `url(...)` token when the node id is in the image map and
the neutral placeholder `#cccccc` otherwise. -/
theorem C3_fill_resolution (atan_fmt : AngleFmt) (conv : Converter)
    (fills : List Paint) (node_id : String) :
    (fills.filter (fun g => g.visible.getD true) = [] →
      get_fills_css atan_fmt conv fills node_id = some "transparent")
    ∧ (∀ f rest, fills.filter (fun g => g.visible.getD true) = f :: rest →
        get_fills_css atan_fmt conv fills node_id =
          get_fills_css atan_fmt conv [f] node_id
        ∧ (f.type = some "SOLID" →
            get_fills_css atan_fmt conv fills node_id =
              some (Color.to_css { parse_color (f.color.getD {}) with
                a := (parse_color (f.color.getD {})).a * f.opacity.getD 1 }))
        ∧ (f.type = some "GRADIENT_LINEAR" →
            get_fills_css atan_fmt conv fills node_id =
              some (parse_gradient atan_fmt f))
        ∧ (f.type = some "IMAGE" →
            get_fills_css atan_fmt conv fills node_id =
              some (match conv.image_fills.lookup node_id with
                | some url => "url(" ++ sq ++ url ++ sq ++ ")"
                | none => "#cccccc"))) := by
  constructor
  · intro hemp
    have hguard :
        (fills.isEmpty || fills.all (fun f => !(f.visible.getD true))) =
          true := by
      rcases fills with _ | ⟨f, rest⟩
      · rfl
      · apply Bool.or_eq_true_iff.mpr
        right
        apply List.all_eq_true.mpr
        intro g hg
        have := List.filter_eq_nil_iff.mp hemp g hg
        simpa using this
    show get_fills_cssF atan_fmt conv 2 fills node_id = _
    rw [get_fills_cssF]
    simp [hguard]
  · intro f rest h
    have hv := vis_of_filter_cons h
    have key := get_fills_css_first atan_fmt conv fills node_id f rest h
    have keyf := get_fills_css_first atan_fmt conv [f] node_id f []
      (by simp [hv])
    refine ⟨key.trans keyf.symm, ?_, ?_, ?_⟩
    · intro ht
      rw [key]
      simp [single_fill_result, ht]
    · intro ht
      rw [key]
      have : f.type ≠ some "SOLID" := by simp [ht]
      simp [single_fill_result, this, ht]
    · intro ht
      rw [key]
      have h1 : f.type ≠ some "SOLID" := by simp [ht]
      have h2 : f.type ≠ some "GRADIENT_LINEAR" := by simp [ht]
      simp only [single_fill_result, h1, h2, ht, if_false, if_true,
        ite_true, ite_false]
      rcases conv.image_fills.lookup node_id with _ | url <;> rfl

/-- Witness for C3: a list whose first visible fill is solid red (after
an invisible fill, and with a later visible fill that is ignored), and
an all-invisible list. -/
theorem C3_fill_resolution_witness :
    get_fills_css atan_fmt0 conv0 [invis_fill, solid_red, extra_fill] "n1" =
      some "rgb(255, 0, 0)"
    ∧ get_fills_css atan_fmt0 conv0 [invis_fill] "n1" = some "transparent" := by
  constructor
  · have h := ((C3_fill_resolution atan_fmt0 conv0
      [invis_fill, solid_red, extra_fill] "n1").2 solid_red [extra_fill]
      (by decide)).2.1 rfl
    have ha : (parse_color (solid_red.color.getD {})).a *
        solid_red.opacity.getD 1 = 1 := by
      norm_num [parse_color, solid_red]
    rw [h, ha]
    decide
  · exact (C3_fill_resolution atan_fmt0 conv0 [invis_fill] "n1").1 (by decide)

/-- C7: a node whose visible flag is false produces the empty string,
whatever its children, reference box, or depth. -/
theorem C7_invisible_skipped (atan_fmt : AngleFmt) (conv : Converter)
    (n : Node) (pb : Option BBoxD) (d : Nat)
    (h : n.data.visible = some false) :
    node_to_html atan_fmt conv n pb d = some "" := by
  rcases n with ⟨nd, cs⟩
  simp only [Node.data] at h
  rw [node_to_html]
  simp [h]

/-- Witness for C7: an invisible frame with a visible child still emits
nothing. -/
theorem C7_invisible_skipped_witness :
    node_to_html atan_fmt0 conv0 invis_node none 0 = some "" :=
  C7_invisible_skipped atan_fmt0 conv0 invis_node none 0 rfl

/-- C9 (totality defect): `get_fills_css` on a single visible fill of
an unhandled paint kind (here `GRADIENT_RADIAL`, the data model's
"other") recurses into itself with the same singleton list and never
returns — `none` at every fuel — and the walker on a node carrying that
fill inherits the non-termination, contradicting the specification's
totality guarantee for structurally valid Paint input. -/
theorem C9_totality_defect :
    (∀ fuel, get_fills_cssF atan_fmt0 conv0 fuel [bad_fill] "9:9" = none)
    ∧ get_fills_css atan_fmt0 conv0 [bad_fill] "9:9" = none
    ∧ node_to_html atan_fmt0 conv0 bad_node none 0 = none := by
  have hdiv := get_fills_cssF_unknown atan_fmt0 conv0 bad_fill "9:9" rfl
    (by decide) (by decide) (by decide)
  exact ⟨hdiv, hdiv 2, by decide⟩

/-- C2: corner-radius precedence — uniform `cornerRadius` first, then a
`rectangleCornerRadii` array of length 4 (collapsing to one token when
all four are equal, `"0px"` when that value is 0, the ordered 4-token
form otherwise), then the per-corner alias probe (each corner trying
its alias names in priority order, stopping at the first present key),
with the same collapse rule; absence of all three gives `"0px"`.
Includes the spec's concrete cases 10, [5,5,5,5], [1,2,3,4] and the
bare node. -/
theorem C2_border_radius (n : NodeData) :
    (∀ u, n.cornerRadius = some u → get_border_radius n = py_num u ++ "px")
    ∧ (∀ radii, n.cornerRadius = none → n.rectangleCornerRadii = some radii →
        radii.length = 4 →
        get_border_radius n =
          if radii.all (fun r => r = radii.headD 0) then
            (if radii.headD 0 = 0 then "0px"
             else py_num (radii.headD 0) ++ "px")
          else
            py_num (radii.headD 0) ++ "px " ++ py_num (radii.getD 1 0) ++
              "px " ++ py_num (radii.getD 2 0) ++ "px " ++
              py_num (radii.getD 3 0) ++ "px")
    ∧ (n.cornerRadius = none →
        (n.rectangleCornerRadii = none ∨
          (∃ radii, n.rectangleCornerRadii = some radii ∧
            radii.length ≠ 4)) →
        get_border_radius n =
          (if alias_corner n top_left_names = none ∧
              alias_corner n top_right_names = none ∧
              alias_corner n bottom_right_names = none ∧
              alias_corner n bottom_left_names = none then "0px"
           else if (alias_corner n top_right_names).getD 0 =
                  (alias_corner n top_left_names).getD 0 ∧
                (alias_corner n bottom_right_names).getD 0 =
                  (alias_corner n top_left_names).getD 0 ∧
                (alias_corner n bottom_left_names).getD 0 =
                  (alias_corner n top_left_names).getD 0 then
             (if (alias_corner n top_left_names).getD 0 = 0 then "0px"
              else py_num ((alias_corner n top_left_names).getD 0) ++ "px")
           else
             py_num ((alias_corner n top_left_names).getD 0) ++ "px " ++
               py_num ((alias_corner n top_right_names).getD 0) ++ "px " ++
               py_num ((alias_corner n bottom_right_names).getD 0) ++
               "px " ++
               py_num ((alias_corner n bottom_left_names).getD 0) ++ "px"))
    ∧ get_border_radius { type := "R", cornerRadius := some 10 } = "10px"
    ∧ get_border_radius
        { type := "R", rectangleCornerRadii := some [5, 5, 5, 5] } = "5px"
    ∧ get_border_radius
        { type := "R", rectangleCornerRadii := some [1, 2, 3, 4] } =
        "1px 2px 3px 4px"
    ∧ get_border_radius { type := "R" } = "0px" := by
  refine ⟨?_, ?_, ?_, by decide, by decide, by decide, by decide⟩
  · intro u hu
    simp [get_border_radius, hu]
  · intro radii h0 h4 hlen
    simp [get_border_radius, h0, h4, hlen]
  · intro h0 hfall
    have halias : get_border_radius n = get_border_radius_aliases n := by
      rcases hfall with hnone | ⟨radii, hsome, hlen⟩
      · simp [get_border_radius, h0, hnone]
      · simp [get_border_radius, h0, hsome, hlen]
    rw [halias]
    rcases h1 : alias_corner n top_left_names with _ | v1 <;>
      rcases h2 : alias_corner n top_right_names with _ | v2 <;>
      rcases h3 : alias_corner n bottom_right_names with _ | v3 <;>
      rcases h4 : alias_corner n bottom_left_names with _ | v4 <;>
      simp [get_border_radius_aliases, h1, h2, h3, h4, and_assoc]

/-- Witness for C2: a uniform radius 7, an equal 4-array, and an alias
probe where `topLeftRadius` beats the lower-priority
`cornerTopLeftRadius`. -/
theorem C2_border_radius_witness :
    get_border_radius { type := "R", cornerRadius := some 7 } = "7px"
    ∧ get_border_radius
        { type := "R", rectangleCornerRadii := some [2, 2, 2, 2] } = "2px"
    ∧ get_border_radius
        { type := "R",
          radius_fields := [("topLeftRadius", 3),
            ("cornerTopLeftRadius", 9)] } = "3px 0px 0px 0px" := by
  refine ⟨((C2_border_radius _).1 7 rfl).trans (by decide),
    ((C2_border_radius _).2.1 [2, 2, 2, 2] rfl rfl (by decide)).trans
      (by decide),
    ((C2_border_radius _).2.2.1 rfl (Or.inl rfl)).trans (by decide)⟩

/-- C10: a `rectangleCornerRadii` array whose length is not 4 is
ignored entirely — the result equals the alias-probe result, i.e. the
same node without the array — and with no alias fields present the
result is `"0px"` despite the supplied radii. -/
theorem C10_radii_length_guard (n : NodeData) (radii : List ℚ)
    (h0 : n.cornerRadius = none) (h4 : n.rectangleCornerRadii = some radii)
    (hlen : radii.length ≠ 4) :
    get_border_radius n = get_border_radius_aliases n
    ∧ get_border_radius n =
        get_border_radius { n with rectangleCornerRadii := none }
    ∧ ((alias_corner n top_left_names = none ∧
        alias_corner n top_right_names = none ∧
        alias_corner n bottom_right_names = none ∧
        alias_corner n bottom_left_names = none) →
        get_border_radius n = "0px") := by
  have k1 : get_border_radius n = get_border_radius_aliases n := by
    simp [get_border_radius, h0, h4, hlen]
  have k2 : get_border_radius { n with rectangleCornerRadii := none } =
      get_border_radius_aliases n := by
    simp [get_border_radius, get_border_radius_aliases, alias_corner, h0]
  refine ⟨k1, k1.trans k2.symm, fun hnone => ?_⟩
  rw [k1]
  simp [get_border_radius_aliases, hnone.1, hnone.2.1, hnone.2.2.1,
    hnone.2.2.2]

/-- Witness for C10: a 3-element radii array and no alias fields give
`"0px"`. -/
theorem C10_radii_length_guard_witness :
    get_border_radius { type := "R", rectangleCornerRadii := some [3, 3, 3] }
      = "0px" :=
  (C10_radii_length_guard
    { type := "R", rectangleCornerRadii := some [3, 3, 3] } [3, 3, 3]
    rfl rfl (by decide)).2.2 ⟨rfl, rfl, rfl, rfl⟩

/-- C5: a linear-gradient fill with at least two handle positions
emits `linear-gradient(<angle>deg, <stops>)` where the angle term is
the formatted value of `atan2(y2 - y1, x2 - x1)` in degrees plus the
fixed 90-degree offset (the formatter being the embedding's `AngleFmt`
parameter, whose idealised value `gradient_angle_deg` equals exactly
135 at handles (0,0) and (1,1), and whose one-decimal format of 135 is
`"135.0"`), with the color stops joined in their given list order, each
as `<color> <position*100 to one decimal>%`; with fewer than two
handles the result is `"transparent"`. -/
theorem C5_gradient (atan_fmt : AngleFmt) (fill : Paint) :
    (fill.type = some "GRADIENT_LINEAR" →
      ∀ g1 g2 gs, fill.gradientHandlePositions = g1 :: g2 :: gs →
        parse_gradient atan_fmt fill =
          "linear-gradient(" ++
            atan_fmt (g1.x.getD 0) (g1.y.getD 0) (g2.x.getD 1)
              (g2.y.getD 1) ++ "deg, " ++
            String.intercalate ", "
              (fill.gradientStops.map gradient_stop_css) ++ ")")
    ∧ (fill.type = some "GRADIENT_LINEAR" →
        fill.gradientHandlePositions.length < 2 →
        parse_gradient atan_fmt fill = "transparent")
    ∧ gradient_angle_deg 0 0 1 1 = 135
    ∧ fmt1 135 = "135.0"
    ∧ (∀ stop, gradient_stop_css stop =
        (parse_color (stop.color.getD {})).to_css ++ " " ++
          fmt1 (stop.position.getD 0 * 100) ++ "%") := by
  refine ⟨?_, ?_, ?_, by decide, fun stop => rfl⟩
  · intro ht g1 g2 gs hh
    simp [parse_gradient, ht, hh]
  · intro ht hlen
    rcases hh : fill.gradientHandlePositions with _ | ⟨a, _ | ⟨b, rest⟩⟩
    · simp [parse_gradient, ht, hh]
    · simp [parse_gradient, ht, hh]
    · rw [hh] at hlen
      exact absurd hlen (by simp)
  · have hsub : ((1 : ℚ) : ℝ) - ((0 : ℚ) : ℝ) = 1 := by norm_num
    rw [gradient_angle_deg, hsub, atan2R, if_pos one_pos]
    norm_num
    have hpi := Real.pi_ne_zero
    field_simp
    ring

/-- Witness for C5: handles (0,0),(1,1) with no stops, and a
single-handle gradient. -/
theorem C5_gradient_witness :
    parse_gradient atan_fmt0 grad_fill = "linear-gradient(135.0deg, )"
    ∧ parse_gradient atan_fmt0 grad_fill1 = "transparent" :=
  ⟨((C5_gradient atan_fmt0 grad_fill).1 rfl _ _ [] rfl).trans (by decide),
    (C5_gradient atan_fmt0 grad_fill1).2.1 rfl (by decide)⟩

/-- Lower-case hexadecimal digit test. -/
def lower_hex_digit (c : Char) : Bool := "0123456789abcdef".data.contains c

set_option maxRecDepth 4000 in
lemma py_hex2_byte : ∀ m : Fin 256,
    (py_hex2 ((m : ℕ) : ℤ)).length = 2 ∧
      (py_hex2 ((m : ℕ) : ℤ)).data.all lower_hex_digit = true := by decide

lemma py_int_mul_255_range {q : ℚ} (h0 : 0 ≤ q) (h1 : q ≤ 1) :
    0 ≤ py_int_mul q 255 ∧ py_int_mul q 255 ≤ 255 := by
  unfold py_int_mul
  have hnum : 0 ≤ q.num := Rat.num_nonneg.mpr h0
  have hden : (0 : ℤ) < (q.den : ℤ) := by exact_mod_cast q.pos
  constructor
  · exact Int.tdiv_nonneg (by positivity) (le_of_lt hden)
  · have hle : q.num ≤ (q.den : ℤ) := by
      have hdenq : (0 : ℚ) < (q.den : ℚ) := by exact_mod_cast q.pos
      have := (div_le_one hdenq).mp (by rw [Rat.num_div_den q]; exact h1)
      exact_mod_cast this
    rw [Int.tdiv_eq_ediv (by positivity) (le_of_lt hden)]
    calc q.num * 255 / (q.den : ℤ) ≤ (q.den : ℤ) * 255 / (q.den : ℤ) :=
          Int.ediv_le_ediv hden
            (mul_le_mul_of_nonneg_right hle (by norm_num))
      _ = 255 := by
          rw [mul_comm]
          exact Int.mul_ediv_cancel 255 (by positivity)

lemma py_hex2_of_range {n : ℤ} (h0 : 0 ≤ n) (h1 : n ≤ 255) :
    (py_hex2 n).length = 2 ∧ (py_hex2 n).data.all lower_hex_digit = true := by
  have hn : n = ((n.toNat : ℕ) : ℤ) := (Int.toNat_of_nonneg h0).symm
  have hlt : n.toNat < 256 := by omega
  have hbyte := py_hex2_byte ⟨n.toNat, hlt⟩
  rw [hn]
  exact hbyte

lemma all_hash_or_hex_of_hex {s : String}
    (h : s.data.all lower_hex_digit = true) :
    s.data.all (fun ch => ch = '#' || lower_hex_digit ch) = true := by
  apply List.all_eq_true.mpr
  intro ch hch
  simp [List.all_eq_true.mp h ch hch]

/-- Counterexample to C4 as stated: with the unclamped pass-through the
claim itself asserts, an out-of-range channel (r = 2.0) makes `to_hex`
emit `#1fe0000` — eight characters, not the 6-hex-digit form `#` plus
six digits. -/
theorem C4_counterexample :
    (Color.mk 2 0 0 1).to_hex = "#1fe0000"
    ∧ ((Color.mk 2 0 0 1).to_hex).length = 8 := by decide

/-- C4 (amended): alpha at least 1 gives the 3-channel `rgb(...)` token
with no alpha; alpha below 1 gives the 4-channel `rgba(...)` token with
the alpha unscaled; both scale r/g/b by 255 with truncating (not
rounding) conversion — `py_int_mul q 255` is the truncation toward zero
of `q * 255`, so `Color(1.0, 0.5, 0.0)` maps to `rgb(255, 127, 0)` and
hex `#ff7f00`; `to_hex` always applies the same truncating scaling with
alpha ignored and is the lower-case 6-hex-digit form whenever the
channels lie in [0, 1]; out-of-range values pass through unclamped and
can lengthen the token (see `C4_counterexample`). -/
theorem C4_color_model (c : Color) :
    (1 ≤ c.a →
      c.to_css = "rgb(" ++ toString (py_int_mul c.r 255) ++ ", " ++
        toString (py_int_mul c.g 255) ++ ", " ++
        toString (py_int_mul c.b 255) ++ ")")
    ∧ (c.a < 1 →
      c.to_css = "rgba(" ++ toString (py_int_mul c.r 255) ++ ", " ++
        toString (py_int_mul c.g 255) ++ ", " ++
        toString (py_int_mul c.b 255) ++ ", " ++ py_num c.a ++ ")")
    ∧ c.to_hex = "#" ++ py_hex2 (py_int_mul c.r 255) ++
        py_hex2 (py_int_mul c.g 255) ++ py_hex2 (py_int_mul c.b 255)
    ∧ (0 ≤ c.r → c.r ≤ 1 → 0 ≤ c.g → c.g ≤ 1 → 0 ≤ c.b → c.b ≤ 1 →
        (c.to_hex).length = 7 ∧
          (c.to_hex).data.all
            (fun ch => ch = '#' || lower_hex_digit ch) = true)
    ∧ (half = 1 / 2
        ∧ (Color.mk 1 half 0 1).to_css = "rgb(255, 127, 0)"
        ∧ (Color.mk 1 half 0 1).to_hex = "#ff7f00"
        ∧ (Color.mk 1 half 0 half).to_css = "rgba(255, 127, 0, 0.5)") := by
  refine ⟨?_, ?_, rfl, ?_, ?_, by decide, by decide, by decide⟩
  · intro h
    simp [Color.to_css, not_lt.mpr h]
  · intro h
    simp [Color.to_css, h]
  · intro hr0 hr1 hg0 hg1 hb0 hb1
    obtain ⟨r0, r255⟩ := py_int_mul_255_range hr0 hr1
    obtain ⟨g0, g255⟩ := py_int_mul_255_range hg0 hg1
    obtain ⟨b0, b255⟩ := py_int_mul_255_range hb0 hb1
    obtain ⟨rl, ra⟩ := py_hex2_of_range r0 r255
    obtain ⟨gl, ga⟩ := py_hex2_of_range g0 g255
    obtain ⟨bl, ba⟩ := py_hex2_of_range b0 b255
    constructor
    · show (Color.to_hex c).length = 7
      rw [Color.to_hex]
      simp only [String.length_append, rl, gl, bl]
      decide
    · show (Color.to_hex c).data.all _ = true
      rw [Color.to_hex]
      simp only [String.data_append, List.all_append, Bool.and_eq_true]
      exact ⟨⟨⟨by decide, all_hash_or_hex_of_hex ra⟩,
        all_hash_or_hex_of_hex ga⟩, all_hash_or_hex_of_hex ba⟩
  · have hval : half = (half.num : ℚ) / (half.den : ℚ) :=
      (Rat.num_div_den half).symm
    rw [show half.num = 1 from rfl, show half.den = 2 from rfl] at hval
    simpa using hval

/-- Witness for C4: a fully-opaque pure red, in range. -/
theorem C4_color_model_witness :
    (Color.mk 1 0 0 1).to_css = "rgb(255, 0, 0)"
    ∧ ((Color.mk 1 0 0 1).to_hex).length = 7 := by
  constructor
  · exact ((C4_color_model (Color.mk 1 0 0 1)).1 (by norm_num)).trans
      (by decide)
  · exact ((C4_color_model (Color.mk 1 0 0 1)).2.2.2.1 (by norm_num)
      (by norm_num) (by norm_num) (by norm_num) (by norm_num)
      (by norm_num)).1

lemma children_htmls_eq_mapM (atan_fmt : AngleFmt) (conv : Converter)
    (pb : Option BBoxD) (d : Nat) :
    ∀ cs : List Node,
      children_htmls atan_fmt conv cs pb d =
        (cs.mapM (fun c => node_to_html atan_fmt conv c pb d)).map
          (List.filter (fun s => !(s == ""))) := by
  intro cs
  induction cs with
  | nil => rfl
  | cons c rest ih =>
    rw [children_htmls, List.mapM_cons, ih]
    rcases hc : node_to_html atan_fmt conv c pb d with _ | s
    · simp [hc]
    · rcases hr : rest.mapM (fun c => node_to_html atan_fmt conv c pb d)
        with _ | ss
      · simp [hc, hr]
      · by_cases hs : s = "" <;> simp [hc, hr, List.filter_cons, hs]

/-- C6: a visible node with no (or a falsy) bounding box is a
transparent pass-through: its output is exactly the newline-join of its
children's non-empty outputs, each child converted against the same
parent reference box and the same depth, and a childless such node
yields the empty string. -/
theorem C6_no_bbox_passthrough (atan_fmt : AngleFmt) (conv : Converter)
    (nd : NodeData) (cs : List Node) (pb : Option BBoxD) (d : Nat)
    (hvis : nd.visible.getD true = true)
    (hbb : nd.absoluteBoundingBox = none ∨
      ∃ bb, nd.absoluteBoundingBox = some bb ∧ bb.truthy = false) :
    node_to_html atan_fmt conv (Node.mk nd cs) pb d =
      (cs.mapM (fun c => node_to_html atan_fmt conv c pb d)).map
        (fun hs => String.intercalate "\n"
          (hs.filter (fun s => !(s == ""))))
    ∧ (cs = [] → node_to_html atan_fmt conv (Node.mk nd cs) pb d =
        some "") := by
  have key : node_to_html atan_fmt conv (Node.mk nd cs) pb d =
      (children_htmls atan_fmt conv cs pb d).map
        (String.intercalate "\n") := by
    rw [node_to_html]
    rcases hbb with h | ⟨bb, h, htf⟩
    · rcases hch : children_htmls atan_fmt conv cs pb d with _ | parts <;>
        simp [h, hvis, hch]
    · rcases hch : children_htmls atan_fmt conv cs pb d with _ | parts <;>
        simp [h, htf, hvis, hch]
  constructor
  · rw [key, children_htmls_eq_mapM]
    rcases hm : cs.mapM (fun c => node_to_html atan_fmt conv c pb d)
      with _ | hs <;> simp [hm]
  · intro h
    subst h
    rw [key]
    rfl

set_option maxRecDepth 8000 in
/-- Witness for C6: a group with no bounding box and two children. -/
theorem C6_no_bbox_passthrough_witness :
    node_to_html atan_fmt0 conv0 pass_node none 0 =
      some ("<div class=\"frame-node\" style=\"position: absolute; " ++
        "left: 100px; top: 200px; width: 50px; height: 60px\"></div>\n" ++
        "<div class=\"rectangle-node\" style=\"position: absolute; " ++
        "left: 5px; top: 6px; width: 7px; height: 8px\"></div>")
    ∧ node_to_html atan_fmt0 conv0
        (Node.mk { type := "GROUP", id := "2:1" } []) none 0 = some "" := by
  constructor
  · exact ((C6_no_bbox_passthrough atan_fmt0 conv0
      ({ type := "GROUP", id := "2:0" } : NodeData) [root_node, other_node]
      none 0 rfl (Or.inl rfl)).1).trans (by decide)
  · exact (C6_no_bbox_passthrough atan_fmt0 conv0
      ({ type := "GROUP", id := "2:1" } : NodeData) [] none 0 rfl
      (Or.inl rfl)).2 rfl

set_option linter.unusedVariables false in
/-- Structural induction over the nested node tree. -/
theorem node_ind (P : Node → Prop)
    (h : ∀ d cs, (∀ c ∈ cs, P c) → P (.mk d cs)) : ∀ n, P n
  | .mk d cs => h d cs (fun c hc => node_ind P h c)
termination_by n => sizeOf n
decreasing_by
  simp_wf
  have := List.sizeOf_lt_of_mem hc
  omega

lemma find_frames_list_append :
    ∀ cs : List Node,
      (∀ c ∈ cs, ∀ a, find_frames c a = a ++ find_frames c []) →
      ∀ a, find_frames_list cs a = a ++ find_frames_list cs [] := by
  intro cs
  induction cs with
  | nil => intro _ a; rw [find_frames_list, find_frames_list,
      List.append_nil]
  | cons c rest ih =>
    intro hcs a
    have hc := hcs c (List.mem_cons_self c rest)
    have hrest : ∀ g ∈ rest, ∀ b, find_frames g b = b ++ find_frames g [] :=
      fun g hg => hcs g (List.mem_cons_of_mem c hg)
    rw [find_frames_list, find_frames_list,
      ih hrest (find_frames c a), ih hrest (find_frames c []), hc a,
      List.append_assoc]

/-- The accumulator of `find_frames` is pure prefix state. -/
lemma find_frames_append (n : Node) :
    ∀ a, find_frames n a = a ++ find_frames n [] := by
  refine node_ind (fun m => ∀ a, find_frames m a = a ++ find_frames m [])
    ?_ n
  intro d cs hind a
  rw [find_frames, find_frames]
  by_cases hcond : d.type = "FRAME" ∧ d.visible.getD true = true
  · simp only [if_pos hcond]
    rw [find_frames_list_append cs hind (a ++ [Node.mk d cs]),
      find_frames_list_append cs hind ([] ++ [Node.mk d cs]),
      List.nil_append, List.append_assoc]
  · simp only [if_neg hcond]
    exact find_frames_list_append cs hind a

lemma find_frames_list_eq_filter :
    ∀ cs : List Node,
      (∀ c ∈ cs, find_frames c [] = (preorder_nodes c).filter
        (fun m => decide (m.data.type = "FRAME") &&
          m.data.visible.getD true)) →
      find_frames_list cs [] = (preorder_list cs).filter
        (fun m => decide (m.data.type = "FRAME") &&
          m.data.visible.getD true) := by
  intro cs
  induction cs with
  | nil => intro _; rfl
  | cons c rest ih =>
    intro hcs
    rw [find_frames_list, preorder_list, List.filter_append,
      find_frames_list_append rest (fun g _ a => find_frames_append g a)
        (find_frames c []),
      hcs c (List.mem_cons_self c rest),
      ih (fun g hg => hcs g (List.mem_cons_of_mem c hg))]

/-- C8: `find_frames` returns exactly the nodes of type FRAME whose own
visible flag is true, in depth-first pre-order, recursing into children
unconditionally (captured by the pre-order/filter characterisation and
the accumulator law); concretely, a visible frame nested under an
invisible frame is still collected, while the Tree Walker emits nothing
for that same subtree. -/
theorem C8_find_frames (n : Node) :
    find_frames n [] = (preorder_nodes n).filter
      (fun m => decide (m.data.type = "FRAME") && m.data.visible.getD true)
    ∧ (∀ acc, find_frames n acc = acc ++ find_frames n [])
    ∧ find_frames hidden_root [] = [inner_frame]
    ∧ node_to_html atan_fmt0 conv0 hidden_root none 0 = some "" := by
  refine ⟨?_, find_frames_append n, rfl, by decide⟩
  refine node_ind (fun m => find_frames m [] = (preorder_nodes m).filter
    (fun m => decide (m.data.type = "FRAME") && m.data.visible.getD true))
    ?_ n
  intro d cs hind
  rw [find_frames, preorder_nodes, List.filter_cons]
  by_cases hcond : d.type = "FRAME" ∧ d.visible.getD true = true
  · have hp : (decide ((Node.mk d cs).data.type = "FRAME") &&
        (Node.mk d cs).data.visible.getD true) = true := by
      simp [Node.data, hcond.1, hcond.2]
    simp only [if_pos hcond, hp, if_true]
    rw [find_frames_list_append cs
        (fun g _ a => find_frames_append g a) ([] ++ [Node.mk d cs]),
      List.nil_append, find_frames_list_eq_filter cs hind,
      List.singleton_append]
  · have hp : (decide ((Node.mk d cs).data.type = "FRAME") &&
        (Node.mk d cs).data.visible.getD true) = false := by
      rcases not_and_or.mp hcond with hc | hc <;> simp [Node.data, hc]
    simp only [if_neg hcond, hp, if_false, Bool.false_eq_true]
    exact find_frames_list_eq_filter cs hind

/-- Counterexample to C1 as stated: the root call on a visible frame
whose absolute bounding box sits at (100, 200) emits
`left: 100px; top: 200px` — the absolute document coordinates — not
`left: 0px; top: 0px`. -/
theorem C1_counterexample :
    node_to_html atan_fmt0 conv0 root_node none 0 =
      some ("<div class=\"frame-node\" style=\"position: absolute; " ++
        "left: 100px; top: 200px; width: 50px; height: 60px\"></div>")
    ∧ py_in "left: 100px"
        ((node_to_html atan_fmt0 conv0 root_node none 0).getD "") = true
    ∧ py_in "left: 0px"
        ((node_to_html atan_fmt0 conv0 root_node none 0).getD "") = false
    ∧ py_in "top: 0px"
        ((node_to_html atan_fmt0 conv0 root_node none 0).getD "") = false := by
  decide

/-- C1 (amended): a call with no parent reference box behaves exactly
like a call whose reference box sits at the document origin — the
emitted left/top are the node's absolute bounding-box x and y, which
are `0px` only when the box itself is at the origin (see
`C1_counterexample` for the concrete output). -/
theorem C1_root_position (atan_fmt : AngleFmt) (conv : Converter)
    (d : Nat) (nd : NodeData) (cs : List Node) (bb : BBoxD)
    (hb : nd.absoluteBoundingBox = some bb) (ht : bb.truthy = true) :
    node_to_html atan_fmt conv (Node.mk nd cs) none d =
      node_to_html atan_fmt conv (Node.mk nd cs) (some origin_box) d := by
  rw [node_to_html, node_to_html]
  simp only [hb, ht, ite_true]
  simp [origin_box, BBoxD.truthy, sub_zero]

/-- Witness for C1: the concrete root frame at (100, 200). -/
theorem C1_root_position_witness :
    node_to_html atan_fmt0 conv0 root_node none 0 =
      node_to_html atan_fmt0 conv0 root_node (some origin_box) 0 :=
  C1_root_position atan_fmt0 conv0 0 root_data [] _ rfl rfl

end Figma
